import Mathlib

/-!
Verification of the chunked speech-synthesis pipeline (respeechit).

Strings are modelled as lists of characters (UTF-16 code units of the
source's JavaScript strings).  Fallible operations return `Except`.
The remote HTTP call and the external concatenation tool are modelled
as oracles passed to the embedded functions, so that every control path
of the source is a path of the embedding.
-/

namespace Respeechit

/-- Text as the source manipulates it: a list of characters. -/
abbrev Text := List Char

/-- Audio bytes as returned by the remote call (`Buffer` in the source). -/
abbrev AudioBuffer := List Nat

/-- JavaScript truthiness test used by `!text?.trim()` in
`DocumentProcessor.splitDocument`: the trimmed string is empty exactly
when every character of the text is whitespace. -/
def isBlank (text : Text) : Bool :=
  text.all Char.isWhitespace

/-- The chunking loop of `DocumentProcessor.splitDocument`:
`for (let i = 0; i < text.length; i += chunkSize) chunks.push(text.slice(i, i + chunkSize))`.
The parameter `m` is `chunkSize - 1`, so the slice width is `m + 1`;
the loop is only reached with a positive `chunkSize`. -/
def chunksPos : Text → Nat → List Text
  | [], _ => []
  | c :: rest, m => (c :: List.take m rest) :: chunksPos (List.drop m rest) m
termination_by l _ => l.length
decreasing_by
  simp only [List.length_drop, List.length_cons]
  omega

/-- `DocumentProcessor.splitDocument(text, chunkSize)`.  The source first
returns `[]` for blank text, then validates that `chunkSize` is a positive
integer (modelled with `chunkSize : Int`, so `Number.isInteger` holds),
then slices the text into pieces of `chunkSize` characters. -/
def splitDocument (text : Text) (chunkSize : Int) : Except String (List Text) :=
  if isBlank text then
    Except.ok []
  else if chunkSize ≤ 0 then
    Except.error "chunkSize must be a positive integer."
  else
    Except.ok (chunksPos text (chunkSize.toNat - 1))

/-! ### Synthesis client: `OpenAIClient.generateSpeech` -/

/-- The `OpenAIError` class of the source: message, HTTP-like status code
and a string error code. -/
structure OpenAIError where
  message : String
  statusCode : Nat
  errorCode : String
deriving Repr, DecidableEq

/-- What one `axios.post` call can produce, as discriminated by the
source's catch block: a successful binary response, a response with a
non-2xx status (and a decoded error body), no response at all (with or
without the client-side `ECONNABORTED` abort), or a failure before the
request was sent. -/
inductive AttemptOutcome where
  | success (bytes : AudioBuffer)
  | httpError (status : Nat) (body : String)
  | noResponse (aborted : Bool)
  | setupError (msg : String)
deriving Repr, DecidableEq

deriving instance DecidableEq for Except

/-- Observable outcome of one `generateSpeech` run: the returned bytes or
the thrown `OpenAIError`, the number of attempts (remote calls) made, and
the backoff delays (ms) actually awaited, in order. -/
structure GenResult where
  result : Except OpenAIError AudioBuffer
  attempts : Nat
  delays : List Nat
deriving Repr, DecidableEq

/-- `const maxRetries = 3` in `OpenAIClient.generateSpeech`. -/
def maxRetries : Nat := 3

/-- The `while (attempt < maxRetries)` loop of `OpenAIClient.generateSpeech`,
one constructor case per arm of its catch block.  `outcomes n` is what the
`n`-th remote call (0-based) produces.  On each failure the source first
increments `attempt`, then either throws (504, 429, non-transient or
exhausted response errors; `ECONNABORTED`; exhausted no-response or setup
errors) or waits `1000 * attempt` ms and loops. -/
def genLoop (outcomes : Nat → AttemptOutcome) (attempt : Nat) : GenResult :=
  if _h : attempt < maxRetries then
    match outcomes attempt with
    | .success bytes => ⟨Except.ok bytes, attempt + 1, []⟩
    | .httpError status body =>
      if status = 504 then
        ⟨Except.error ⟨"OpenAI server timed out. This usually happens when processing large text. Try with a smaller chunk of text.", 504, "OPENAI_TIMEOUT"⟩, attempt + 1, []⟩
      else if status = 429 then
        ⟨Except.error ⟨"OpenAI API rate limit exceeded. Please try again after some time.", 429, "RATE_LIMIT_EXCEEDED"⟩, attempt + 1, []⟩
      else if ¬(500 ≤ status ∧ status < 600) ∨ maxRetries ≤ attempt + 1 then
        ⟨Except.error ⟨"OpenAI API error: " ++ body, status, "API_ERROR"⟩, attempt + 1, []⟩
      else
        let rest := genLoop outcomes (attempt + 1)
        ⟨rest.result, rest.attempts, 1000 * (attempt + 1) :: rest.delays⟩
    | .noResponse aborted =>
      if aborted then
        ⟨Except.error ⟨"Request timed out. The OpenAI server took too long to respond.", 504, "REQUEST_TIMEOUT"⟩, attempt + 1, []⟩
      else if maxRetries ≤ attempt + 1 then
        ⟨Except.error ⟨"Failed to receive response from OpenAI API after multiple attempts.", 500, "NO_RESPONSE"⟩, attempt + 1, []⟩
      else
        let rest := genLoop outcomes (attempt + 1)
        ⟨rest.result, rest.attempts, 1000 * (attempt + 1) :: rest.delays⟩
    | .setupError msg =>
      if maxRetries ≤ attempt + 1 then
        ⟨Except.error ⟨"Request setup error: " ++ msg, 500, "REQUEST_SETUP_ERROR"⟩, attempt + 1, []⟩
      else
        let rest := genLoop outcomes (attempt + 1)
        ⟨rest.result, rest.attempts, 1000 * (attempt + 1) :: rest.delays⟩
  else
    ⟨Except.error ⟨"Unexpected error in speech generation.", 500, "UNEXPECTED_ERROR"⟩, attempt, []⟩
termination_by maxRetries - attempt
decreasing_by
  all_goals omega

/-- `OpenAIClient.generateSpeech` viewed through its retry behavior: the
run starts at `attempt = 0`. -/
def generateSpeech (outcomes : Nat → AttemptOutcome) : GenResult :=
  genLoop outcomes 0

/-- Rendering of the `voiceOptions.speed` hint: appended only when `speed`
is present and truthy (nonzero); `speed > 1` selects the faster wording,
anything else the slower wording. -/
def speedHint (speed : Option ℚ) : String :=
  match speed with
  | none => ""
  | some v => if v = 0 then "" else if 1 < v then " Speak at a faster pace." else " Speak at a slower pace."

/-- Rendering of the `voiceOptions.pitch` hint: appended only when `pitch`
is present and truthy (nonzero); `pitch > 0` selects the higher wording,
anything else the lower wording. -/
def pitchHint (pitch : Option ℚ) : String :=
  match pitch with
  | none => ""
  | some v => if v = 0 then "" else if 0 < v then " Use a higher pitch." else " Use a lower pitch."

/-- The `formattedInstructions` construction at the top of the try block of
`OpenAIClient.generateSpeech`: the speed hint, then the pitch hint, are
appended to `instructions`. -/
def formatInstructions (instructions : String) (speed pitch : Option ℚ) : String :=
  instructions ++ speedHint speed ++ pitchHint pitch

/-- The spec's error taxonomy (§7). -/
inductive ErrorKind where
  | InvalidArgument
  | UpstreamTimeout
  | RateLimited
  | RequestRejected
  | RequestTimeout
  | UpstreamError
  | NoResponse
  | RequestSetupError
  | Unexpected
deriving Repr, DecidableEq

/-- Modelled from the spec: the spec's §7 taxonomy rendered over the code's
`OpenAIError` values; the spec names the code's `API_ERROR` at a 5xx status
`UpstreamError` and at a 4xx status `RequestRejected`, and maps the other
`errorCode` strings one-to-one. -/
def classify (e : OpenAIError) : ErrorKind :=
  if e.errorCode = "OPENAI_TIMEOUT" then ErrorKind.UpstreamTimeout
  else if e.errorCode = "RATE_LIMIT_EXCEEDED" then ErrorKind.RateLimited
  else if e.errorCode = "REQUEST_TIMEOUT" then ErrorKind.RequestTimeout
  else if e.errorCode = "NO_RESPONSE" then ErrorKind.NoResponse
  else if e.errorCode = "REQUEST_SETUP_ERROR" then ErrorKind.RequestSetupError
  else if e.errorCode = "API_ERROR" then
    (if 500 ≤ e.statusCode then ErrorKind.UpstreamError else ErrorKind.RequestRejected)
  else ErrorKind.Unexpected

/-! ### Orchestrator: `SpeechGenerator.generateSpeechFromDocument` -/

/-- `path.join(outputDir, name)` on a POSIX system. -/
def pathJoin (dir name : String) : String :=
  dir ++ "/" ++ name

/-- The file name `chunk_<i + 1>.mp3` the orchestrator derives from the
0-based segment index `i`. -/
def chunkFileName (i : Nat) : String :=
  "chunk_" ++ toString (i + 1) ++ ".mp3"

/-- `outputPath.replace(/\\/g, '/')` applied before the path is pushed
onto `filePaths`. -/
def slashify (s : String) : String :=
  String.map (fun c => if c = '\\' then '/' else c) s

/-- The path the orchestrator records for segment `i`. -/
def orchOutputPath (outputDir : String) (i : Nat) : String :=
  slashify (pathJoin outputDir (chunkFileName i))

/-- Observable behavior of one orchestrator run: the returned path list,
the file writes performed (path and bytes, in order), and the 0-based
indices of the segments on which the synthesis client was invoked. -/
structure OrchRun where
  filePaths : List String
  writes : List (String × AudioBuffer)
  attempted : List Nat
deriving Repr, DecidableEq

/-- The per-chunk loop of `generateSpeechFromDocument`, starting at chunk
index `i`.  `synth i c` is the outcome of `this.client.generateSpeech`
on the `i`-th chunk `c` (the remote's nondeterminism indexed by call).
A success writes the file and pushes the slash-normalized path; any error
is caught and the loop continues with the next chunk. -/
def runChunks (outputDir : String) (synth : Nat → Text → Except OpenAIError AudioBuffer)
    (i : Nat) : List Text → OrchRun
  | [] => ⟨[], [], []⟩
  | c :: rest =>
    let tail := runChunks outputDir synth (i + 1) rest
    match synth i c with
    | Except.ok buf =>
      ⟨orchOutputPath outputDir i :: tail.filePaths,
       (pathJoin outputDir (chunkFileName i), buf) :: tail.writes,
       i :: tail.attempted⟩
    | Except.error _ =>
      ⟨tail.filePaths, tail.writes, i :: tail.attempted⟩

/-- `SpeechGenerator.generateSpeechFromDocument`: split the document with
the fixed `chunkSize = 1000`, then run the per-chunk loop; an error thrown
by the splitter would propagate to the caller. -/
def generateSpeechFromDocument (document : Text) (outputDir : String)
    (synth : Nat → Text → Except OpenAIError AudioBuffer) : Except String OrchRun :=
  match splitDocument document 1000 with
  | Except.error e => Except.error e
  | Except.ok chunks => Except.ok (runChunks outputDir synth 0 chunks)

/-- The chunk list `generateSpeechFromDocument` actually works on:
`splitDocument document 1000` never throws, and yields `[]` on blank
input and 1000-character slices otherwise. -/
def docChunks (document : Text) : List Text :=
  if isBlank document then [] else chunksPos document 999

/-- Specification view: the 0-based indices (counted from `i`) of the
chunks whose synthesis succeeds. -/
def successIndices (synth : Nat → Text → Except OpenAIError AudioBuffer)
    (i : Nat) : List Text → List Nat
  | [] => []
  | c :: rest =>
    match synth i c with
    | Except.ok _ => i :: successIndices synth (i + 1) rest
    | Except.error _ => successIndices synth (i + 1) rest

/-- Specification view: the file writes performed for the successful
chunks, in chunk order. -/
def successWrites (synth : Nat → Text → Except OpenAIError AudioBuffer)
    (outputDir : String) (i : Nat) : List Text → List (String × AudioBuffer)
  | [] => []
  | c :: rest =>
    match synth i c with
    | Except.ok buf =>
      (pathJoin outputDir (chunkFileName i), buf) :: successWrites synth outputDir (i + 1) rest
    | Except.error _ => successWrites synth outputDir (i + 1) rest

/-! ### `SpeechGenerator.combineAudioFiles` -/

/-- The JavaScript template `"${f}"`: wrap a string in double quotes. -/
def quoteArg (s : String) : String :=
  "\"" ++ s ++ "\""

/-- The ffmpeg command `combineAudioFiles` builds for two or more paths:
each path is quoted, the quoted paths are joined with a pipe into a
`concat:` input, and the output path is quoted. -/
def combineCommand (filePaths : List String) (outputPath : String) : String :=
  "ffmpeg -i " ++ quoteArg ("concat:" ++ String.intercalate "|" (filePaths.map quoteArg))
    ++ " -acodec copy " ++ quoteArg outputPath

/-- `SpeechGenerator.combineAudioFiles`: returns `null` for an empty list,
the single path unchanged for one element, and otherwise runs the external
command (`execOk` models whether `execAsync` succeeds), failing with the
explicit error message when it does not.  The second component lists the
external commands actually executed. -/
def combineAudioFiles : List String → String → Bool → Except String (Option String) × List String
  | [], _, _ => (Except.ok none, [])
  | [p], _, _ => (Except.ok (some p), [])
  | p :: q :: rest, outputPath, execOk =>
    let cmd := combineCommand (p :: q :: rest) outputPath
    if execOk then (Except.ok (some outputPath), [cmd])
    else (Except.error "Failed to combine audio files", [cmd])

/-! ### Chunker lemmas -/

theorem chunksPos_join (l : Text) (m : Nat) : (chunksPos l m).flatten = l := by
  induction l, m using chunksPos.induct with
  | case1 m => simp [chunksPos]
  | case2 c rest m ih =>
    simp only [chunksPos, List.flatten_cons, List.cons_append, ih]
    simp [List.take_append_drop]

theorem chunksPos_length_le (l : Text) (m : Nat) :
    ∀ ch ∈ chunksPos l m, ch.length ≤ m + 1 := by
  induction l, m using chunksPos.induct with
  | case1 m => intro ch h; simp [chunksPos] at h
  | case2 c rest m ih =>
    intro ch h
    simp only [chunksPos, List.mem_cons] at h
    rcases h with h | h
    · subst h
      simp only [List.length_cons, List.length_take]
      omega
    · exact ih ch h

theorem chunksPos_count (l : Text) (m : Nat) :
    (chunksPos l m).length = (l.length + m) / (m + 1) := by
  induction l, m using chunksPos.induct with
  | case1 m =>
    simp [chunksPos, Nat.div_eq_of_lt (Nat.lt_succ_self m)]
  | case2 c rest m ih =>
    simp only [chunksPos, List.length_cons, ih, List.length_drop]
    rcases le_or_lt m rest.length with hle | hlt
    · have h1 : rest.length - m + m = rest.length := Nat.sub_add_cancel hle
      have h2 : rest.length + 1 + m = rest.length + (m + 1) := by omega
      rw [h1, h2, Nat.add_div_right _ (Nat.succ_pos m)]
    · have h1 : rest.length - m = 0 := Nat.sub_eq_zero_of_le (Nat.le_of_lt hlt)
      have h2 : (0 + m) / (m + 1) = 0 := by
        rw [Nat.zero_add]
        exact Nat.div_eq_of_lt (Nat.lt_succ_self m)
      have h3 : (rest.length + 1 + m) / (m + 1) = 1 := by
        apply Nat.div_eq_of_lt_le
        · omega
        · omega
      rw [h1, h2, h3]

theorem splitDocument_pos (text : Text) (chunkSize : Int)
    (hb : isBlank text = false) (hp : 0 < chunkSize) :
    splitDocument text chunkSize = Except.ok (chunksPos text (chunkSize.toNat - 1)) := by
  simp [splitDocument, hb]
  omega

/-! ### Orchestrator loop lemmas -/

theorem runChunks_attempted (outputDir : String)
    (synth : Nat → Text → Except OpenAIError AudioBuffer) (i : Nat) (chunks : List Text) :
    (runChunks outputDir synth i chunks).attempted = List.range' i chunks.length := by
  induction chunks generalizing i with
  | nil => simp [runChunks, List.range']
  | cons c rest ih =>
    simp only [runChunks, List.length_cons, List.range'_succ]
    cases synth i c with
    | ok buf => simp [ih]
    | error e => simp [ih]

theorem runChunks_filePaths (outputDir : String)
    (synth : Nat → Text → Except OpenAIError AudioBuffer) (i : Nat) (chunks : List Text) :
    (runChunks outputDir synth i chunks).filePaths
      = (successIndices synth i chunks).map (orchOutputPath outputDir) := by
  induction chunks generalizing i with
  | nil => simp [runChunks, successIndices]
  | cons c rest ih =>
    simp only [runChunks, successIndices]
    cases synth i c with
    | ok buf => simp [ih]
    | error e => simp [ih]

theorem runChunks_writes (outputDir : String)
    (synth : Nat → Text → Except OpenAIError AudioBuffer) (i : Nat) (chunks : List Text) :
    (runChunks outputDir synth i chunks).writes = successWrites synth outputDir i chunks := by
  induction chunks generalizing i with
  | nil => simp [runChunks, successWrites]
  | cons c rest ih =>
    simp only [runChunks, successWrites]
    cases synth i c with
    | ok buf => simp [ih]
    | error e => simp [ih]

theorem successIndices_ge (synth : Nat → Text → Except OpenAIError AudioBuffer)
    (i : Nat) (chunks : List Text) :
    ∀ k ∈ successIndices synth i chunks, i ≤ k := by
  induction chunks generalizing i with
  | nil => simp [successIndices]
  | cons c rest ih =>
    intro k hk
    simp only [successIndices] at hk
    cases h : synth i c with
    | ok buf =>
      rw [h] at hk
      simp only [List.mem_cons] at hk
      rcases hk with hk | hk
      · omega
      · have := ih (i + 1) k hk
        omega
    | error e =>
      rw [h] at hk
      have := ih (i + 1) k hk
      omega

theorem successIndices_chain (synth : Nat → Text → Except OpenAIError AudioBuffer)
    (i : Nat) (chunks : List Text) :
    List.Chain' (· < ·) (successIndices synth i chunks) := by
  induction chunks generalizing i with
  | nil => simp [successIndices]
  | cons c rest ih =>
    simp only [successIndices]
    cases synth i c with
    | ok buf =>
      refine List.chain'_cons'.mpr ⟨?_, ih (i + 1)⟩
      intro y hy
      have hmem := List.mem_of_mem_head? hy
      have := successIndices_ge synth (i + 1) rest y hmem
      omega
    | error e => exact ih (i + 1)

theorem successIndices_length_le (synth : Nat → Text → Except OpenAIError AudioBuffer)
    (i : Nat) (chunks : List Text) :
    (successIndices synth i chunks).length ≤ chunks.length := by
  induction chunks generalizing i with
  | nil => simp [successIndices]
  | cons c rest ih =>
    simp only [successIndices, List.length_cons]
    cases synth i c with
    | ok buf =>
      simp only [List.length_cons]
      exact Nat.succ_le_succ (ih (i + 1))
    | error e => exact Nat.le_succ_of_le (ih (i + 1))

theorem successWrites_fst (synth : Nat → Text → Except OpenAIError AudioBuffer)
    (outputDir : String) (i : Nat) (chunks : List Text) :
    (successWrites synth outputDir i chunks).map Prod.fst
      = (successIndices synth i chunks).map (fun k => pathJoin outputDir (chunkFileName k)) := by
  induction chunks generalizing i with
  | nil => simp [successWrites, successIndices]
  | cons c rest ih =>
    simp only [successWrites, successIndices]
    cases synth i c with
    | ok buf => simp [ih]
    | error e => simp [ih]

theorem splitDocument_1000 (document : Text) :
    splitDocument document 1000 = Except.ok (docChunks document) := by
  by_cases hb : isBlank document
  · simp [splitDocument, docChunks, hb]
  · simp [splitDocument, docChunks, hb]

theorem generateSpeechFromDocument_eq (document : Text) (outputDir : String)
    (synth : Nat → Text → Except OpenAIError AudioBuffer) :
    generateSpeechFromDocument document outputDir synth
      = Except.ok (runChunks outputDir synth 0 (docChunks document)) := by
  simp [generateSpeechFromDocument, splitDocument_1000]

theorem orchRun_eq (r : OrchRun) (a : List String) (b : List (String × AudioBuffer))
    (c : List Nat) (h1 : r.filePaths = a) (h2 : r.writes = b) (h3 : r.attempted = c) :
    r = ⟨a, b, c⟩ := by
  cases r
  simp_all

/-! ### Retry loop lemmas -/

theorem genLoop_http_retry (outcomes : Nat → AttemptOutcome) (a s : Nat) (body : String)
    (ha : a + 1 < maxRetries) (hout : outcomes a = AttemptOutcome.httpError s body)
    (h5 : 500 ≤ s) (h6 : s < 600) (h504 : s ≠ 504) :
    genLoop outcomes a = ⟨(genLoop outcomes (a + 1)).result, (genLoop outcomes (a + 1)).attempts,
      1000 * (a + 1) :: (genLoop outcomes (a + 1)).delays⟩ := by
  have h429 : ¬(s = 429) := by omega
  have hretry : ¬(¬(500 ≤ s ∧ s < 600) ∨ maxRetries ≤ a + 1) := by
    simp only [maxRetries] at ha ⊢
    omega
  rw [genLoop]
  rw [dif_pos (Nat.lt_of_succ_lt ha), hout]
  simp only [if_neg h504, if_neg h429, if_neg hretry]

theorem genLoop_http_final (outcomes : Nat → AttemptOutcome) (a s : Nat) (body : String)
    (ha : a < maxRetries) (hfin : maxRetries ≤ a + 1)
    (hout : outcomes a = AttemptOutcome.httpError s body)
    (h504 : s ≠ 504) (h429 : s ≠ 429) :
    genLoop outcomes a
      = ⟨Except.error ⟨"OpenAI API error: " ++ body, s, "API_ERROR"⟩, a + 1, []⟩ := by
  have hthrow : ¬(500 ≤ s ∧ s < 600) ∨ maxRetries ≤ a + 1 := Or.inr hfin
  rw [genLoop]
  rw [dif_pos ha, hout]
  simp only [if_neg h504, if_neg h429, if_pos hthrow]

theorem genLoop_setup_retry (outcomes : Nat → AttemptOutcome) (a : Nat) (msg : String)
    (ha : a + 1 < maxRetries) (hout : outcomes a = AttemptOutcome.setupError msg) :
    genLoop outcomes a = ⟨(genLoop outcomes (a + 1)).result, (genLoop outcomes (a + 1)).attempts,
      1000 * (a + 1) :: (genLoop outcomes (a + 1)).delays⟩ := by
  have hretry : ¬(maxRetries ≤ a + 1) := by omega
  rw [genLoop]
  rw [dif_pos (Nat.lt_of_succ_lt ha), hout]
  simp only [if_neg hretry]

theorem genLoop_setup_final (outcomes : Nat → AttemptOutcome) (a : Nat) (msg : String)
    (ha : a < maxRetries) (hfin : maxRetries ≤ a + 1)
    (hout : outcomes a = AttemptOutcome.setupError msg) :
    genLoop outcomes a
      = ⟨Except.error ⟨"Request setup error: " ++ msg, 500, "REQUEST_SETUP_ERROR"⟩, a + 1, []⟩ := by
  rw [genLoop]
  rw [dif_pos ha, hout]
  simp only [if_pos hfin]

theorem genLoop_429 (outcomes : Nat → AttemptOutcome) (a : Nat) (body : String)
    (ha : a < maxRetries) (hout : outcomes a = AttemptOutcome.httpError 429 body) :
    genLoop outcomes a
      = ⟨Except.error ⟨"OpenAI API rate limit exceeded. Please try again after some time.",
          429, "RATE_LIMIT_EXCEEDED"⟩, a + 1, []⟩ := by
  rw [genLoop]
  rw [dif_pos ha, hout]
  simp

theorem genLoop_success (outcomes : Nat → AttemptOutcome) (a : Nat) (bytes : AudioBuffer)
    (ha : a < maxRetries) (hout : outcomes a = AttemptOutcome.success bytes) :
    genLoop outcomes a = ⟨Except.ok bytes, a + 1, []⟩ := by
  rw [genLoop]
  rw [dif_pos ha, hout]

/-! ### Claims about the synthesis client -/

/-- Claim C2: facing a remote that answers every attempt with a 5xx status
other than 504, `generateSpeech` makes exactly 3 attempts, waits 1000 ms
before the 2nd attempt and 2000 ms before the 3rd, and then fails with an
error the spec's taxonomy classifies as `UpstreamError` (the code's
`API_ERROR` code at a 5xx status). -/
theorem generateSpeech_always5xx_retries (outcomes : Nat → AttemptOutcome)
    (h : ∀ i, i < maxRetries → ∃ s body, outcomes i = AttemptOutcome.httpError s body ∧
      500 ≤ s ∧ s < 600 ∧ s ≠ 504) :
    (generateSpeech outcomes).attempts = 3 ∧
    (generateSpeech outcomes).delays = [1000, 2000] ∧
    ∃ e, (generateSpeech outcomes).result = Except.error e ∧
      classify e = ErrorKind.UpstreamError := by
  obtain ⟨s0, b0, h0, h05, h06, h0t⟩ := h 0 (by simp [maxRetries])
  obtain ⟨s1, b1, h1, h15, h16, h1t⟩ := h 1 (by simp [maxRetries])
  obtain ⟨s2, b2, h2, h25, h26, h2t⟩ := h 2 (by simp [maxRetries])
  have e0 := genLoop_http_retry outcomes 0 s0 b0 (by simp [maxRetries]) h0 h05 h06 h0t
  have e1 := genLoop_http_retry outcomes 1 s1 b1 (by simp [maxRetries]) h1 h15 h16 h1t
  have e2 := genLoop_http_final outcomes 2 s2 b2 (by simp [maxRetries])
    (by simp [maxRetries]) h2 h2t (by omega)
  have hall : generateSpeech outcomes
      = ⟨Except.error ⟨"OpenAI API error: " ++ b2, s2, "API_ERROR"⟩, 3, [1000, 2000]⟩ := by
    simp [generateSpeech, e0, e1, e2]
  rw [hall]
  refine ⟨rfl, rfl, _, rfl, ?_⟩
  simp [classify, h25]

/-- Claim C6: a remote 429 response causes exactly 1 attempt, no backoff
delay, and an immediate failure classified `RateLimited`. -/
theorem generateSpeech_429_immediate (outcomes : Nat → AttemptOutcome)
    (h : ∃ body, outcomes 0 = AttemptOutcome.httpError 429 body) :
    (generateSpeech outcomes).attempts = 1 ∧
    (generateSpeech outcomes).delays = [] ∧
    ∃ e, (generateSpeech outcomes).result = Except.error e ∧
      classify e = ErrorKind.RateLimited := by
  obtain ⟨body, h0⟩ := h
  have e0 := genLoop_429 outcomes 0 body (by simp [maxRetries]) h0
  have hall : generateSpeech outcomes
      = ⟨Except.error ⟨"OpenAI API rate limit exceeded. Please try again after some time.",
          429, "RATE_LIMIT_EXCEEDED"⟩, 1, []⟩ := by
    simp [generateSpeech, e0]
  rw [hall]
  exact ⟨rfl, rfl, _, rfl, by simp [classify]⟩

/-- Claim C3, counterexample: a setup error on the first attempt is NOT
raised immediately — the client retries, and here the 2nd attempt succeeds,
so the whole call returns the audio bytes after 2 attempts. -/
theorem generateSpeech_setup_immediate_cex :
    (generateSpeech fun i =>
      if i = 0 then AttemptOutcome.setupError "boom" else AttemptOutcome.success [7]).result
        = Except.ok [7] ∧
    (generateSpeech fun i =>
      if i = 0 then AttemptOutcome.setupError "boom" else AttemptOutcome.success [7]).attempts
        = 2 := by
  have e0 := genLoop_setup_retry
    (fun i => if i = 0 then AttemptOutcome.setupError "boom" else AttemptOutcome.success [7])
    0 "boom" (by simp [maxRetries]) (by simp)
  have e1 := genLoop_success
    (fun i => if i = 0 then AttemptOutcome.setupError "boom" else AttemptOutcome.success [7])
    1 [7] (by simp [maxRetries]) (by simp)
  constructor
  · simp [generateSpeech, e0, e1]
  · simp [generateSpeech, e0, e1]

/-- Claim C3 (amended): a request-setup failure is retried like a transient
error; when every attempt fails during request setup, `generateSpeech`
makes 3 attempts with 1000 ms and 2000 ms waits between them and then
fails with `RequestSetupError`. -/
theorem generateSpeech_setup_exhausts (outcomes : Nat → AttemptOutcome)
    (h : ∀ i, i < maxRetries → ∃ msg, outcomes i = AttemptOutcome.setupError msg) :
    (generateSpeech outcomes).attempts = 3 ∧
    (generateSpeech outcomes).delays = [1000, 2000] ∧
    ∃ e, (generateSpeech outcomes).result = Except.error e ∧
      classify e = ErrorKind.RequestSetupError := by
  obtain ⟨m0, h0⟩ := h 0 (by simp [maxRetries])
  obtain ⟨m1, h1⟩ := h 1 (by simp [maxRetries])
  obtain ⟨m2, h2⟩ := h 2 (by simp [maxRetries])
  have e0 := genLoop_setup_retry outcomes 0 m0 (by simp [maxRetries]) h0
  have e1 := genLoop_setup_retry outcomes 1 m1 (by simp [maxRetries]) h1
  have e2 := genLoop_setup_final outcomes 2 m2 (by simp [maxRetries]) (by simp [maxRetries]) h2
  have hall : generateSpeech outcomes
      = ⟨Except.error ⟨"Request setup error: " ++ m2, 500, "REQUEST_SETUP_ERROR"⟩,
          3, [1000, 2000]⟩ := by
    simp [generateSpeech, e0, e1, e2]
  rw [hall]
  exact ⟨rfl, rfl, _, rfl, by simp [classify]⟩

theorem generateSpeech_always5xx_retries_witness :
    (generateSpeech (fun _ => AttemptOutcome.httpError 500 "oops")).attempts = 3 ∧
    (generateSpeech (fun _ => AttemptOutcome.httpError 500 "oops")).delays = [1000, 2000] ∧
    ∃ e, (generateSpeech (fun _ => AttemptOutcome.httpError 500 "oops")).result
        = Except.error e ∧ classify e = ErrorKind.UpstreamError :=
  generateSpeech_always5xx_retries (fun _ => AttemptOutcome.httpError 500 "oops")
    (fun _ _ => ⟨500, "oops", rfl, by norm_num, by norm_num, by norm_num⟩)

theorem generateSpeech_429_immediate_witness :
    (generateSpeech (fun _ => AttemptOutcome.httpError 429 "limit")).attempts = 1 ∧
    (generateSpeech (fun _ => AttemptOutcome.httpError 429 "limit")).delays = [] ∧
    ∃ e, (generateSpeech (fun _ => AttemptOutcome.httpError 429 "limit")).result
        = Except.error e ∧ classify e = ErrorKind.RateLimited :=
  generateSpeech_429_immediate (fun _ => AttemptOutcome.httpError 429 "limit")
    ⟨"limit", rfl⟩

theorem generateSpeech_setup_exhausts_witness :
    (generateSpeech (fun _ => AttemptOutcome.setupError "bad payload")).attempts = 3 ∧
    (generateSpeech (fun _ => AttemptOutcome.setupError "bad payload")).delays = [1000, 2000] ∧
    ∃ e, (generateSpeech (fun _ => AttemptOutcome.setupError "bad payload")).result
        = Except.error e ∧ classify e = ErrorKind.RequestSetupError :=
  generateSpeech_setup_exhausts (fun _ => AttemptOutcome.setupError "bad payload")
    (fun _ _ => ⟨"bad payload", rfl⟩)

/-! ### Claims about the chunker -/

/-- Claim C4, counterexample: the round-trip fails on a whitespace-only
text — `splitDocument " " 1` returns the empty chunk list, whose
concatenation is empty, not the original text. -/
theorem splitDocument_roundtrip_cex :
    splitDocument [' '] 1 = Except.ok [] ∧ ([] : List Text).flatten ≠ [' '] := by
  decide

/-- Claim C4 (amended): for every text containing at least one
non-whitespace character and every positive chunk size, concatenating the
chunks of `splitDocument` in order reproduces the text exactly (blank
texts instead yield the empty chunk list). -/
theorem splitDocument_roundtrip_nonblank (text : Text) (L : Int)
    (hb : isBlank text = false) (hp : 0 < L) :
    splitDocument text L = Except.ok (chunksPos text (L.toNat - 1)) ∧
    (chunksPos text (L.toNat - 1)).flatten = text :=
  ⟨splitDocument_pos text L hb hp, chunksPos_join text (L.toNat - 1)⟩

theorem splitDocument_roundtrip_nonblank_witness :
    isBlank ['a', 'b', ' ', 'c'] = false ∧ (0 : Int) < 2 ∧
    (splitDocument ['a', 'b', ' ', 'c'] 2
        = Except.ok (chunksPos ['a', 'b', ' ', 'c'] ((2 : Int).toNat - 1)) ∧
      (chunksPos ['a', 'b', ' ', 'c'] ((2 : Int).toNat - 1)).flatten = ['a', 'b', ' ', 'c']) :=
  ⟨by decide, by decide,
   splitDocument_roundtrip_nonblank ['a', 'b', ' ', 'c'] 2 (by decide) (by decide)⟩

/-- Claim C5, counterexample: with an empty or whitespace-only text the
blank check runs first, so a non-positive chunk size is NOT rejected —
`splitDocument "" 0` and `splitDocument " " (-5)` both return `[]`. -/
theorem splitDocument_invalid_cex :
    splitDocument [] 0 = Except.ok [] ∧ splitDocument [' '] (-5) = Except.ok [] := by
  decide

/-- Claim C5 (amended): for every text containing at least one
non-whitespace character, `splitDocument` fails with the
`InvalidArgument`-style error whenever the chunk size is not positive
(in particular for 0 and -5). -/
theorem splitDocument_invalid_nonblank (text : Text) (L : Int)
    (hb : isBlank text = false) (hL : L ≤ 0) :
    splitDocument text L = Except.error "chunkSize must be a positive integer." := by
  simp [splitDocument, hb, hL]

theorem splitDocument_invalid_nonblank_witness :
    isBlank ['a'] = false ∧ (0 : Int) ≤ 0 ∧ (-5 : Int) ≤ 0 ∧
    splitDocument ['a'] 0 = Except.error "chunkSize must be a positive integer." ∧
    splitDocument ['a'] (-5) = Except.error "chunkSize must be a positive integer." :=
  ⟨by decide, by decide, by decide,
   splitDocument_invalid_nonblank ['a'] 0 (by decide) (by decide),
   splitDocument_invalid_nonblank ['a'] (-5) (by decide) (by decide)⟩

/-- Claim C7, counterexample: for the non-empty whitespace-only text `" "`
and chunk size 2, `splitDocument` returns zero chunks although
`ceil(1 / 2) = 1`. -/
theorem splitDocument_count_cex :
    splitDocument [' '] 2 = Except.ok [] ∧
    ([] : List Text).length ≠ (([' '] : Text).length + 2 - 1) / 2 := by
  decide

/-- Claim C7 (amended): for every text containing at least one
non-whitespace character and every positive chunk size `L`, every chunk of
`splitDocument` has length at most `L` and the number of chunks is
`ceil(length / L)` (written `(length + L - 1) / L`). -/
theorem splitDocument_bound_count (text : Text) (L : Int)
    (hb : isBlank text = false) (hp : 0 < L) :
    splitDocument text L = Except.ok (chunksPos text (L.toNat - 1)) ∧
    (∀ ch ∈ chunksPos text (L.toNat - 1), ch.length ≤ L.toNat) ∧
    (chunksPos text (L.toNat - 1)).length = (text.length + L.toNat - 1) / L.toNat := by
  have hL : 0 < L.toNat := by omega
  refine ⟨splitDocument_pos text L hb hp, ?_, ?_⟩
  · intro ch hch
    have := chunksPos_length_le text (L.toNat - 1) ch hch
    omega
  · rw [chunksPos_count text (L.toNat - 1)]
    congr 1 <;> omega

theorem splitDocument_bound_count_witness :
    isBlank ['a', 'b', 'c'] = false ∧ (0 : Int) < 2 ∧
    (splitDocument ['a', 'b', 'c'] 2
        = Except.ok (chunksPos ['a', 'b', 'c'] ((2 : Int).toNat - 1)) ∧
      (∀ ch ∈ chunksPos ['a', 'b', 'c'] ((2 : Int).toNat - 1), ch.length ≤ (2 : Int).toNat) ∧
      (chunksPos ['a', 'b', 'c'] ((2 : Int).toNat - 1)).length
        = ((['a', 'b', 'c'] : Text).length + (2 : Int).toNat - 1) / (2 : Int).toNat) :=
  ⟨by decide, by decide,
   splitDocument_bound_count ['a', 'b', 'c'] 2 (by decide) (by decide)⟩

/-! ### Claims about the orchestrator -/

/-- Claim C1: for every document, output directory and per-segment
synthesis outcome (`synth`, covering arbitrary failures on any segments),
the orchestrator never aborts: it attempts every segment in order
(`attempted` is the full index range) and returns exactly the paths of
the successfully persisted segments. -/
theorem generateSpeechFromDocument_skips_failures (document : Text) (outputDir : String)
    (synth : Nat → Text → Except OpenAIError AudioBuffer) :
    generateSpeechFromDocument document outputDir synth
      = Except.ok ⟨(successIndices synth 0 (docChunks document)).map (orchOutputPath outputDir),
                   successWrites synth outputDir 0 (docChunks document),
                   List.range' 0 (docChunks document).length⟩ := by
  rw [generateSpeechFromDocument_eq]
  exact congrArg Except.ok (orchRun_eq _ _ _ _
    (runChunks_filePaths outputDir synth 0 (docChunks document))
    (runChunks_writes outputDir synth 0 (docChunks document))
    (runChunks_attempted outputDir synth 0 (docChunks document)))

/-- Claim C8: in every orchestrator run, the successful segment of 0-based
index `i` is persisted to `outputDir/chunk_<i+1>.mp3`; the returned path
list follows the successful segment indices in strictly ascending order
with no duplicates, and is never longer than the list of attempted
segments. -/
theorem generateSpeechFromDocument_artifact_invariants (document : Text) (outputDir : String)
    (synth : Nat → Text → Except OpenAIError AudioBuffer) :
    generateSpeechFromDocument document outputDir synth
      = Except.ok (runChunks outputDir synth 0 (docChunks document)) ∧
    (runChunks outputDir synth 0 (docChunks document)).writes.map Prod.fst
      = (successIndices synth 0 (docChunks document)).map
          (fun k => pathJoin outputDir (chunkFileName k)) ∧
    (runChunks outputDir synth 0 (docChunks document)).filePaths
      = (successIndices synth 0 (docChunks document)).map (orchOutputPath outputDir) ∧
    List.Chain' (fun a b => a < b) (successIndices synth 0 (docChunks document)) ∧
    (successIndices synth 0 (docChunks document)).Nodup ∧
    (runChunks outputDir synth 0 (docChunks document)).filePaths.length
      ≤ (runChunks outputDir synth 0 (docChunks document)).attempted.length := by
  have hchain := successIndices_chain synth 0 (docChunks document)
  refine ⟨generateSpeechFromDocument_eq document outputDir synth, ?_, ?_, hchain, ?_, ?_⟩
  · rw [runChunks_writes]
    exact successWrites_fst synth outputDir 0 (docChunks document)
  · exact runChunks_filePaths outputDir synth 0 (docChunks document)
  · have hpw := List.chain'_iff_pairwise.mp hchain
    exact hpw.imp (fun hab => ne_of_lt hab)
  · rw [runChunks_filePaths, runChunks_attempted]
    simp only [List.length_map, List.length_range']
    exact successIndices_length_le synth 0 (docChunks document)

/-! ### Claim about the voice-option hints -/

/-- Claim C9: for any voice options in their documented ranges
(`speed` in 0.5..2.0, `pitch` in -10..10), the textual hints appended to
the instructions preserve direction relative to the neutral baseline
(speed 1, pitch 0): above-neutral speed gives the faster-pace wording,
below-neutral the slower-pace wording, above-neutral pitch the
higher-pitch wording, below-neutral the lower-pitch wording. -/
theorem formatInstructions_direction (instr : String) (v p : ℚ)
    (hv1 : 1 / 2 ≤ v) (hv2 : v ≤ 2) (hp1 : -10 ≤ p) (hp2 : p ≤ 10) :
    formatInstructions instr (some v) (some p)
      = instr ++ speedHint (some v) ++ pitchHint (some p) ∧
    (1 < v → speedHint (some v) = " Speak at a faster pace.") ∧
    (v < 1 → speedHint (some v) = " Speak at a slower pace.") ∧
    (0 < p → pitchHint (some p) = " Use a higher pitch.") ∧
    (p < 0 → pitchHint (some p) = " Use a lower pitch.") := by
  have hv0 : ¬(v = 0) := by
    intro h
    rw [h] at hv1
    norm_num at hv1
  refine ⟨rfl, ?_, ?_, ?_, ?_⟩
  · intro h
    simp [speedHint, hv0, h]
  · intro h
    rw [speedHint, if_neg hv0, if_neg (not_lt.mpr (le_of_lt h))]
  · intro h
    simp [pitchHint, ne_of_gt h, h]
  · intro h
    rw [pitchHint, if_neg (ne_of_lt h), if_neg (not_lt.mpr (le_of_lt h))]

theorem formatInstructions_direction_witness :
    (1 : ℚ) / 2 ≤ 3 / 2 ∧ (3 : ℚ) / 2 ≤ 2 ∧ (-10 : ℚ) ≤ -2 ∧ (-2 : ℚ) ≤ 10 ∧
    (formatInstructions "Speak in a neutral tone." (some (3 / 2)) (some (-2))
        = "Speak in a neutral tone." ++ speedHint (some (3 / 2)) ++ pitchHint (some (-2)) ∧
      ((1 : ℚ) < 3 / 2 → speedHint (some ((3 : ℚ) / 2)) = " Speak at a faster pace.") ∧
      ((3 : ℚ) / 2 < 1 → speedHint (some ((3 : ℚ) / 2)) = " Speak at a slower pace.") ∧
      ((0 : ℚ) < -2 → pitchHint (some ((-2 : ℚ))) = " Use a higher pitch.") ∧
      ((-2 : ℚ) < 0 → pitchHint (some ((-2 : ℚ))) = " Use a lower pitch.")) :=
  ⟨by norm_num, by norm_num, by norm_num, by norm_num,
   formatInstructions_direction "Speak in a neutral tone." (3 / 2) (-2)
     (by norm_num) (by norm_num) (by norm_num) (by norm_num)⟩

/-! ### Claim about `combineAudioFiles` -/

/-- Claim C10: `combineAudioFiles` returns `null` for an empty path list;
returns the single path unchanged, running no external command, for one
path; and only for two or more paths runs the ffmpeg command, failing with
the explicit error `Failed to combine audio files` when that command
fails. -/
theorem combineAudioFiles_behavior (p q outputPath : String) (rest : List String)
    (execOk : Bool) :
    combineAudioFiles [] outputPath execOk = (Except.ok none, []) ∧
    combineAudioFiles [p] outputPath execOk = (Except.ok (some p), []) ∧
    combineAudioFiles (p :: q :: rest) outputPath execOk
      = ((if execOk then Except.ok (some outputPath)
          else Except.error "Failed to combine audio files"),
         [combineCommand (p :: q :: rest) outputPath]) := by
  refine ⟨rfl, rfl, ?_⟩
  by_cases h : execOk <;> simp [combineAudioFiles, h]

end Respeechit
